import Mathlib

/-
Shallow embedding of the ny_restaurants filter builder
(src/app/models/params.py) and the HTTP error-normalizing middleware
(src/app/middleware/http_middleware.py).

Python runtime objects are modelled by the inductive `Value`; a filter
instance is a `Value.filterObj` whose five attribute slots are `Option Value`
(`Option.none` means the attribute was never assigned, so accessing it raises
AttributeError). Python exceptions raised by the modelled code are the
`PyErr` type, and every method returns `Except PyErr _`.
-/

namespace NyRestaurants

/-- Enumeration OP_FIELD from params.py: operators for single filters. -/
inductive OP_FIELD
| EQ
| NE
| CONTAIN
| IN
| NOT_IN
| GT
| GTE
| LT
| LTE
| NOT
deriving DecidableEq

/-- Wire token of each OP_FIELD member (the `value` of the Python enum). -/
def OP_FIELD.value : OP_FIELD → String
| .EQ => "$eq"
| .NE => "$ne"
| .CONTAIN => "$regex"
| .IN => "$in"
| .NOT_IN => "$nin"
| .GT => "$gt"
| .GTE => "$gte"
| .LT => "$lt"
| .LTE => "$lte"
| .NOT => "$not"

/-- Members of OP_FIELD in Python definition (iteration) order. -/
def OP_FIELD.members : List OP_FIELD :=
[.EQ, .NE, .CONTAIN, .IN, .NOT_IN, .GT, .GTE, .LT, .LTE, .NOT]

/-- Enumeration OP from params.py: operators for combined filters. -/
inductive OP
| AND
| OR
| NOR
deriving DecidableEq

/-- Wire token of each OP member. -/
def OP.value : OP → String
| .AND => "$and"
| .OR => "$or"
| .NOR => "$nor"

/-- Members of OP in Python definition (iteration) order. -/
def OP.members : List OP :=
[.AND, .OR, .NOR]

/-- Python runtime values visible to the modelled code: None, ints and floats
(numbers, no arithmetic is ever performed on them), strings, lists, dicts
(insertion-ordered association lists with arbitrary value keys, as in Python),
enum members of the two operator enums, and filter objects. A filter object
carries the five attribute slots of the Filter hierarchy; `Option.none` marks
an attribute that was never assigned by any initializer. -/
inductive Value
| none
| num (n : Int)
| str (s : String)
| list (xs : List Value)
| doc (d : List (Value × Value))
| opFieldMember (m : OP_FIELD)
| opMember (m : OP)
| filterObj (value operator_field field filter_elements operator : Option Value)

/-- Python equality test between a runtime value and a string literal, as used
by comparisons such as `self.operator_field == OP_FIELD.EQ.value`. Only a
string equal to the literal compares true; enum members, numbers, lists and
objects never equal a string. -/
def Value.eqStr : Value → String → Bool
| .str s, t => s == t
| _, _ => false

/-- Python truthiness, as used by `if not self.filter_elements:`. -/
def Value.truthy : Value → Bool
| .none => false
| .num n => n != 0
| .str s => !(s == "")
| .list xs => !xs.isEmpty
| .doc d => !d.isEmpty
| .opFieldMember _ => true
| .opMember _ => true
| .filterObj _ _ _ _ _ => true

/-- The `isinstance(value, list)` test of checkForList. -/
def Value.isList : Value → Bool
| .list _ => true
| _ => false

/-- The `isinstance(value, int) or isinstance(value, float)` test of
checkForNum. -/
def Value.isNum : Value → Bool
| .num _ => true
| _ => false

/-- Name of an OP_FIELD member, for repr. -/
def toStringOPFIELD : OP_FIELD → String
| .EQ => "EQ"
| .NE => "NE"
| .CONTAIN => "CONTAIN"
| .IN => "IN"
| .NOT_IN => "NOT_IN"
| .GT => "GT"
| .GTE => "GTE"
| .LT => "LT"
| .LTE => "LTE"
| .NOT => "NOT"

/-- Name of an OP member, for repr. -/
def toStringOP : OP → String
| .AND => "AND"
| .OR => "OR"
| .NOR => "NOR"

mutual
/-- Python repr() of a value, used by str() for containers. Filter objects
render as a fixed placeholder (their memory address is elided). -/
def pyRepr : Value → String
| .none => "None"
| .num n => toString n
| .str s => "\x27" ++ s ++ "\x27"
| .list xs => "[" ++ pyReprList xs ++ "]"
| .doc d => "\x7b" ++ pyReprDoc d ++ "\x7d"
| .opFieldMember m => "<OP_FIELD." ++ toStringOPFIELD m ++ ">"
| .opMember m => "<OP." ++ toStringOP m ++ ">"
| .filterObj _ _ _ _ _ => "<Filter object>"

/-- Comma-joined reprs of list elements. -/
def pyReprList : List Value → String
| [] => ""
| [x] => pyRepr x
| x :: xs => pyRepr x ++ ", " ++ pyReprList xs

/-- Comma-joined `key: value` reprs of dict entries. -/
def pyReprDoc : List (Value × Value) → String
| [] => ""
| [kv] => pyRepr kv.1 ++ ": " ++ pyRepr kv.2
| kv :: d => pyRepr kv.1 ++ ": " ++ pyRepr kv.2 ++ ", " ++ pyReprDoc d
end

/-- Python str() of a value, as interpolated by the f-string in the CONTAIN
branch of doBuildSingle. -/
def pyStr : Value → String
| .str s => s
| v => pyRepr v

mutual
/-- True when the exact string n occurs somewhere inside the value: as the
value itself, as a list element, or as a dict key or entry, recursively. -/
def Value.mentions (n : String) : Value → Bool
| .none => false
| .num _ => false
| .str s => s == n
| .list xs => mentionsList n xs
| .doc d => mentionsDoc n d
| .opFieldMember _ => false
| .opMember _ => false
| .filterObj v opf f fe op =>
  mentionsOpt n v || mentionsOpt n opf || mentionsOpt n f || mentionsOpt n fe || mentionsOpt n op

/-- Occurrence of n in an optional attribute slot. -/
def mentionsOpt (n : String) : Option Value → Bool
| Option.none => false
| some v => Value.mentions n v

/-- Occurrence of n in some element of a list. -/
def mentionsList (n : String) : List Value → Bool
| [] => false
| x :: xs => Value.mentions n x || mentionsList n xs

/-- Occurrence of n in some key or entry of a dict. -/
def mentionsDoc (n : String) : List (Value × Value) → Bool
| [] => false
| kv :: d => Value.mentions n kv.1 || Value.mentions n kv.2 || mentionsDoc n d
end

/-- Python exceptions raised by the modelled code: AttributeError when an
unassigned attribute is read, ValueError from the two type checks, TypeError
from a call with a wrong number of arguments or from iterating a
non-iterable. -/
inductive PyErr
| attributeError (name : String)
| valueError (msg : String)
| typeError (msg : String)
deriving DecidableEq

/-- Constructor SingleFilter.__init__(value, operator_field, field): it does
not call the base initializer, so filter_elements and operator stay
unassigned. -/
def SingleFilter.init (value operator_field field : Value) : Value :=
.filterObj (some value) (some operator_field) (some field) Option.none Option.none

/-- Constructor CombinedFilter.__init__(filter_elements, operator): it does
not call the base initializer, so value, operator_field and field stay
unassigned. -/
def CombinedFilter.init (filter_elements operator : Value) : Value :=
.filterObj Option.none Option.none Option.none (some filter_elements) (some operator)

/-- Constructor Filter.__init__ of the base class: all five attributes are
assigned, each defaulting to None. -/
def Filter.init (value operator_field field filter_elements operator : Value) : Value :=
.filterObj (some value) (some operator_field) (some field) (some filter_elements) (some operator)

/-- Filter.checkForList(self, value): ignores its argument and tests
`isinstance(self.value, list)`, raising ValueError otherwise. -/
def checkForList (self : Value) (_value : Value) : Except PyErr Unit :=
match self with
| .filterObj value _ _ _ _ =>
  match value with
  | Option.none => .error (.attributeError "value")
  | some v => if v.isList then .ok () else .error (.valueError "Value should be a list.")
| _ => .error (.typeError "checkForList called on a non-filter object")

/-- Filter.checkForNum(self, value): ignores its argument and tests
`isinstance(self.value, int) or isinstance(self.value, float)`, raising
ValueError otherwise. -/
def checkForNum (self : Value) (_value : Value) : Except PyErr Unit :=
match self with
| .filterObj value _ _ _ _ =>
  match value with
  | Option.none => .error (.attributeError "value")
  | some v => if v.isNum then .ok () else .error (.valueError "Value should be a number.")
| _ => .error (.typeError "checkForNum called on a non-filter object")

/-- The assignment `l_request[self.field] = self.value` of the EQ branch:
Python evaluates the right-hand side (self.value) before the subscript target
(self.field). -/
def bareAssign (value field : Option Value) : Except PyErr Value :=
match value with
| Option.none => .error (.attributeError "value")
| some v =>
  match field with
  | Option.none => .error (.attributeError "field")
  | some f => .ok (.doc [(f, v)])

/-- The assignment `l_request[self.field] = {self.operator_field: self.value}`
of the NE, NOT, IN, NOT_IN and comparison branches. -/
def wrapAssign (opf : Value) (value field : Option Value) : Except PyErr Value :=
match value with
| Option.none => .error (.attributeError "value")
| some v =>
  match field with
  | Option.none => .error (.attributeError "field")
  | some f => .ok (.doc [(f, .doc [(opf, v)])])

/-- The assignment of the CONTAIN branch:
`l_request[self.field] = {self.operator_field: f".*{self.value}.*", "$options": "i"}`. -/
def regexAssign (opf : Value) (value field : Option Value) : Except PyErr Value :=
match value with
| Option.none => .error (.attributeError "value")
| some v =>
  match field with
  | Option.none => .error (.attributeError "field")
  | some f =>
    .ok (.doc [(f, .doc [(opf, .str (".*" ++ pyStr v ++ ".*")), (.str "$options", .str "i")])])

/-- Filter.doBuildSingle(self), params.py lines 74-90: the elif chain over
`self.operator_field` compared with the enum tokens; IN/NOT_IN first call
checkForList(self.value) and the comparison operators first call
checkForNum(self.value); no branch matching yields the empty dict. -/
def doBuildSingle (self : Value) : Except PyErr Value :=
match self with
| .filterObj value operator_field field _ _ =>
  match operator_field with
  | Option.none => .error (.attributeError "operator_field")
  | some opf =>
    if opf.eqStr OP_FIELD.EQ.value then
      bareAssign value field
    else if opf.eqStr OP_FIELD.NE.value then
      wrapAssign opf value field
    else if opf.eqStr OP_FIELD.NOT.value then
      wrapAssign opf value field
    else if opf.eqStr OP_FIELD.CONTAIN.value then
      regexAssign opf value field
    else if opf.eqStr OP_FIELD.IN.value || opf.eqStr OP_FIELD.NOT_IN.value then
      match value with
      | Option.none => .error (.attributeError "value")
      | some v =>
        match checkForList self v with
        | .error e => .error e
        | .ok _ => wrapAssign opf value field
    else if opf.eqStr OP_FIELD.GT.value || opf.eqStr OP_FIELD.GTE.value
        || opf.eqStr OP_FIELD.LT.value || opf.eqStr OP_FIELD.LTE.value then
      match value with
      | Option.none => .error (.attributeError "value")
      | some v =>
        match checkForNum self v with
        | .error e => .error e
        | .ok _ => wrapAssign opf value field
    else
      .ok (.doc [])
| _ => .error (.typeError "doBuildSingle called on a non-filter object")

/-- Filter.doBuildCombined(self, elements), params.py lines 92-96:
`if self.operator in [OP.AND.value, OP.OR.value, OP.NOR.value]` wraps the
elements under the operator key, otherwise the empty dict is returned. -/
def doBuildCombined (self : Value) (elements : Value) : Except PyErr Value :=
match self with
| .filterObj _ _ _ _ operator =>
  match operator with
  | Option.none => .error (.attributeError "operator")
  | some op =>
    if op.eqStr OP.AND.value || op.eqStr OP.OR.value || op.eqStr OP.NOR.value then
      .ok (.doc [(op, elements)])
    else
      .ok (.doc [])
| _ => .error (.typeError "doBuildCombined called on a non-filter object")

/-- Filter.make(self), params.py lines 63-72. When `self.filter_elements` is
falsy the single-filter path runs. When it is truthy, the comprehension
`[ self.doBuildSingle(single_filter) for single_filter in self.filter_elements ]`
runs: doBuildSingle is declared with no parameter besides self, so the call
with a second positional argument raises TypeError as soon as the first
element is produced (for a truthy non-iterable, iterating raises TypeError
first). In either truthy case the method never returns normally; the result
of doBuildCombined would in any case be discarded since line 71 does not
assign it to l_request. -/
def make (self : Value) : Except PyErr Value :=
match self with
| .filterObj _ _ _ filter_elements _ =>
  match filter_elements with
  | Option.none => .error (.attributeError "filter_elements")
  | some fe =>
    if !fe.truthy then
      doBuildSingle self
    else
      match fe with
      | .str _ | .list _ | .doc _ =>
        .error (.typeError "Filter.doBuildSingle takes 1 positional argument but 2 were given")
      | _ => .error (.typeError "object is not iterable")
| _ => .error (.typeError "make called on a non-filter object")

/-- Loop body of SingleFilter.apply, params.py lines 121-127: the for loop
over OP_FIELD returns on its very first iteration, True when
`self.operator_field == op.value` for that first member and False otherwise;
an empty enumeration would fall through and return None. -/
def applyLoopField (opf : Value) : List OP_FIELD → Option Bool
| [] => Option.none
| m :: _ => some (opf.eqStr m.value)

/-- SingleFilter.apply(self). -/
def SingleFilter.apply (self : Value) : Except PyErr (Option Bool) :=
match self with
| .filterObj _ operator_field _ _ _ =>
  match operator_field with
  | Option.none => .error (.attributeError "operator_field")
  | some opf => .ok (applyLoopField opf OP_FIELD.members)
| _ => .error (.typeError "apply called on a non-filter object")

/-- Loop body of CombinedFilter.apply, params.py lines 141-146: same
first-iteration shape over OP. -/
def applyLoopCombined (op : Value) : List OP → Option Bool
| [] => Option.none
| m :: _ => some (op.eqStr m.value)

/-- CombinedFilter.apply(self). -/
def CombinedFilter.apply (self : Value) : Except PyErr (Option Bool) :=
match self with
| .filterObj _ _ _ _ operator =>
  match operator with
  | Option.none => .error (.attributeError "operator")
  | some op => .ok (applyLoopCombined op OP.members)
| _ => .error (.typeError "apply called on a non-filter object")

/-- An exception object as probed by the middleware: each slot is an
attribute the handler tests with hasattr, `Option.none` meaning the attribute
is absent. The errors slot models the `_errors` attribute. -/
structure PyExcObj where
  status_code : Option Value
  detail : Option Value
  obj : Option Value
  args : Option Value
  errors : Option Value

/-- The response the middleware constructs: a status code, the error_content
dict (serialized with json.dumps in the source) and the Content-Type header
value. -/
structure Response where
  status_code : Value
  content : List (Value × Value)
  contentType : String

/-- Body of the two identical except handlers of CustomMiddleware.dispatch,
http_middleware.py lines 20-49. Note the source builds
`error_content = {"detail": error_detail}` from the default before it
reassigns the local error_detail from e.detail, and never writes the
reassigned value back into error_content. -/
def handleException (e : PyExcObj) : Response :=
  let error_detail : Value := .str "Internal server error."
  let error_content : List (Value × Value) := [(.str "detail", error_detail)]
  let status_code : Value := match e.status_code with | some v => v | Option.none => .num 500
  let _error_detail := match e.detail with | some v => v | Option.none => error_detail
  let error_content := match e.obj with
    | some v => error_content ++ [(.str "obj", v)]
    | Option.none => error_content
  let error_content := match e.args with
    | some v => error_content ++ [(.str "args", v)]
    | Option.none => error_content
  let error_content := match e.errors with
    | some v => error_content ++ [(.str "errors", v)]
    | Option.none => error_content
  ⟨status_code, error_content, "application/json"⟩

/-- CustomMiddleware.dispatch(self, request, call_next): the outcome of
`await call_next(request)` either is returned unchanged or, when it raised,
is normalized by the except handlers. -/
def dispatch (result : Except PyExcObj Response) : Response :=
match result with
| .ok r => r
| .error e => handleException e

/-- A value compares equal to a string literal exactly when it is that
string. -/
theorem eqStr_true_iff {u : Value} {t : String} : u.eqStr t = true ↔ u = .str t := by
  cases u <;> simp [Value.eqStr]

/-- The regex pattern built by the CONTAIN branch is never the string $eq,
whatever the interpolated value: it is strictly longer. -/
theorem star_ne (s : String) : ((".*" ++ s ++ ".*") == "$eq") = false := by
  simp only [beq_eq_false_iff_ne]
  intro h
  have hd : (".*" ++ s ++ ".*").data = ("$eq" : String).data := by rw [h]
  have h1 : (".*" : String).data = [Char.ofNat 46, Char.ofNat 42] := rfl
  have h2 : ("$eq" : String).data = [Char.ofNat 36, Char.ofNat 101, Char.ofNat 113] := rfl
  rw [String.data_append, String.data_append, h1, h2] at hd
  have := congrArg List.length hd
  simp at this

/-- Claim C1 (code_bug evidence): on a CombinedFilter with one SingleFilter
element and operator token $and, make() raises TypeError, because the list
comprehension calls doBuildSingle with a second positional argument; the
claimed output is never produced, although the element itself compiles to
the expected single-filter document and doBuildCombined, applied to the
compiled elements, would return exactly the claimed combination document
(make discards that return value). -/
theorem make_combined_nonempty_raises_typeError :
  make (CombinedFilter.init (.list [SingleFilter.init (.num 5) (.str "$eq") (.str "a")]) (.str "$and")) =
    .error (.typeError "Filter.doBuildSingle takes 1 positional argument but 2 were given") ∧
  doBuildSingle (SingleFilter.init (.num 5) (.str "$eq") (.str "a")) = .ok (.doc [(.str "a", .num 5)]) ∧
  doBuildCombined (CombinedFilter.init (.list [SingleFilter.init (.num 5) (.str "$eq") (.str "a")]) (.str "$and"))
      (.list [.doc [(.str "a", .num 5)]]) =
    .ok (.doc [(.str "$and", .list [.doc [(.str "a", .num 5)]])]) :=
  ⟨rfl, rfl, rfl⟩

/-- Claim C2 (code_bug evidence): both apply() loops return on their first
iteration, so validity is the comparison with the first enum member only.
The token $ne is the enumerated value of OP_FIELD.NE yet SingleFilter.apply
returns False on it, and $or is the enumerated value of OP.OR yet
CombinedFilter.apply returns False on it; in general apply reduces to the
equality test against the first member ($eq, resp. $and). -/
theorem apply_first_member_comparison :
  OP_FIELD.NE.value = "$ne" ∧
  SingleFilter.apply (SingleFilter.init (.num 1) (.str "$ne") (.str "a")) = .ok (some false) ∧
  SingleFilter.apply (SingleFilter.init (.num 1) (.str "$eq") (.str "a")) = .ok (some true) ∧
  OP.OR.value = "$or" ∧
  CombinedFilter.apply (CombinedFilter.init (.list []) (.str "$or")) = .ok (some false) ∧
  (∀ (v fld opf : Value),
    SingleFilter.apply (SingleFilter.init v opf fld) = .ok (some (opf.eqStr OP_FIELD.EQ.value))) ∧
  (∀ (fe op : Value),
    CombinedFilter.apply (CombinedFilter.init fe op) = .ok (some (op.eqStr OP.AND.value))) :=
  ⟨rfl, rfl, rfl, rfl, rfl, fun _ _ _ => rfl, fun _ _ => rfl⟩

/-- Claim C3 (code_bug evidence): for an exception exposing status_code 404
and detail string, the middleware propagates the status code but the body
keeps the default detail, because error_content is created from the default
before the local error_detail is reassigned and is never updated; with no
attributes exposed the handler defaults to 500 and the generic message. -/
theorem dispatch_detail_not_propagated :
  dispatch (.error ⟨some (.num 404), some (.str "Not found"), Option.none, some (.list []), Option.none⟩) =
    ⟨.num 404, [(.str "detail", .str "Internal server error."), (.str "args", .list [])], "application/json"⟩ ∧
  dispatch (.error ⟨Option.none, Option.none, Option.none, Option.none, Option.none⟩) =
    ⟨.num 500, [(.str "detail", .str "Internal server error.")], "application/json"⟩ :=
  ⟨rfl, rfl⟩

/-- Claim C4: single-filter compilation with an IN or NOT_IN token fails with
the list-shape ValueError exactly when the value is not a list, and with a
comparison token fails with the number-shape ValueError exactly when the
value is not numeric; when the shape matches, the output is the wrapped
operator document. -/
theorem doBuildSingle_type_constraints :
  (∀ (v : Value) (f tok : String), tok = OP_FIELD.IN.value ∨ tok = OP_FIELD.NOT_IN.value →
    doBuildSingle (SingleFilter.init v (.str tok) (.str f)) =
      (if v.isList then .ok (.doc [(.str f, .doc [(.str tok, v)])])
       else .error (.valueError "Value should be a list."))) ∧
  (∀ (v : Value) (f tok : String),
    tok = OP_FIELD.GT.value ∨ tok = OP_FIELD.GTE.value ∨ tok = OP_FIELD.LT.value ∨ tok = OP_FIELD.LTE.value →
    doBuildSingle (SingleFilter.init v (.str tok) (.str f)) =
      (if v.isNum then .ok (.doc [(.str f, .doc [(.str tok, v)])])
       else .error (.valueError "Value should be a number."))) := by
  constructor
  · intro v f tok htok
    rcases htok with h | h <;> subst h <;>
      cases hv : v.isList <;>
        simp [doBuildSingle, SingleFilter.init, OP_FIELD.value, Value.eqStr, checkForList,
          wrapAssign, hv]
  · intro v f tok htok
    rcases htok with h | h | h | h <;> subst h <;>
      cases hv : v.isNum <;>
        simp [doBuildSingle, SingleFilter.init, OP_FIELD.value, Value.eqStr, checkForNum,
          wrapAssign, hv]

/-- Witness for claim C4: the string value abc under $in raises the list
ValueError, and the numeric value 5 under $gt builds the wrapped document. -/
theorem doBuildSingle_type_constraints_witness :
  doBuildSingle (SingleFilter.init (.str "abc") (.str "$in") (.str "f")) =
    .error (.valueError "Value should be a list.") ∧
  doBuildSingle (SingleFilter.init (.num 5) (.str "$gt") (.str "age")) =
    .ok (.doc [(.str "age", .doc [(.str "$gt", .num 5)])]) := by
  constructor
  · have h := doBuildSingle_type_constraints.1 (.str "abc") "f" "$in" (Or.inl rfl)
    simpa [Value.isList] using h
  · have h := doBuildSingle_type_constraints.2 (.num 5) "age" "$gt" (Or.inl rfl)
    simpa [Value.isNum] using h

/-- Claim C5: a string operator tag outside the ten enumerated OP_FIELD
tokens makes doBuildSingle return the empty document for every value and
field, raising nothing. -/
theorem doBuildSingle_unknown_operator_noop :
  ∀ (s : String), s ∉ OP_FIELD.members.map OP_FIELD.value →
    ∀ (v f : Value), doBuildSingle (SingleFilter.init v (.str s) f) = .ok (.doc []) := by
  intro s hs v f
  simp [OP_FIELD.members, OP_FIELD.value] at hs
  obtain ⟨h1, h2, h3, h4, h5, h6, h7, h8, h9, h10⟩ := hs
  simp [doBuildSingle, SingleFilter.init, OP_FIELD.value, Value.eqStr,
    h1, h2, h3, h4, h5, h6, h7, h8, h9, h10]

/-- Witness for claim C5: the tag $exists is outside the enumeration and
yields the empty document on a list-violating value. -/
theorem doBuildSingle_unknown_operator_noop_witness :
  ("$exists" ∉ OP_FIELD.members.map OP_FIELD.value) ∧
  doBuildSingle (SingleFilter.init (.num 1) (.str "$exists") (.str "f")) = .ok (.doc []) :=
  ⟨by decide, doBuildSingle_unknown_operator_noop "$exists" (by decide) (.num 1) (.str "f")⟩

/-- Claim C6 (counterexample): with the caller-supplied field name $eq, the
EQ compilation emits a document whose key is the $eq token, so the token does
appear in an output of the builder. -/
theorem eq_token_appears_in_builder_output :
  doBuildSingle (SingleFilter.init (.num 1) (.str OP_FIELD.EQ.value) (.str "$eq")) =
    .ok (.doc [(.str "$eq", .num 1)]) ∧
  Value.mentions "$eq" (.doc [(.str "$eq", .num 1)]) = true :=
  ⟨rfl, rfl⟩

/-- Claim C6 (amended): EQ compiles to the bare equality document with no
operator sub-document, and the builder never introduces the $eq token by
itself: whenever neither the value nor the field mentions the string $eq,
no successful output of doBuildSingle mentions it. -/
theorem doBuildSingle_eq_bare_and_no_eq_introduced :
  (∀ (v f : Value), doBuildSingle (SingleFilter.init v (.str OP_FIELD.EQ.value) f) = .ok (.doc [(f, v)])) ∧
  (∀ (v opf f out : Value), doBuildSingle (SingleFilter.init v opf f) = .ok out →
    Value.mentions "$eq" v = false → Value.mentions "$eq" f = false →
    Value.mentions "$eq" out = false) := by
  constructor
  · intro v f
    rfl
  · intro v opf f out h hv hf
    simp only [doBuildSingle, SingleFilter.init] at h
    split at h
    · rename_i h1
      rw [eqStr_true_iff] at h1
      simp only [bareAssign, Except.ok.injEq] at h
      subst h
      simp [Value.mentions, mentionsDoc, hv, hf]
    · split at h
      · rename_i h1
        rw [eqStr_true_iff] at h1
        subst h1
        simp only [wrapAssign, Except.ok.injEq] at h
        subst h
        simp [Value.mentions, mentionsDoc, hv, hf, OP_FIELD.value]
      · split at h
        · rename_i h1
          rw [eqStr_true_iff] at h1
          subst h1
          simp only [wrapAssign, Except.ok.injEq] at h
          subst h
          simp [Value.mentions, mentionsDoc, hv, hf, OP_FIELD.value]
        · split at h
          · rename_i h1
            rw [eqStr_true_iff] at h1
            subst h1
            simp only [regexAssign, Except.ok.injEq] at h
            subst h
            simp [Value.mentions, mentionsDoc, hv, hf, OP_FIELD.value, star_ne]
          · split at h
            · rename_i h1
              simp only [Bool.or_eq_true] at h1
              simp only [checkForList] at h
              split at h
              · exact (Except.noConfusion h)
              · simp only [wrapAssign, Except.ok.injEq] at h
                subst h
                rcases h1 with h1 | h1 <;> rw [eqStr_true_iff] at h1 <;> subst h1 <;>
                  simp [Value.mentions, mentionsDoc, hv, hf, OP_FIELD.value]
            · split at h
              · rename_i h1
                simp only [Bool.or_eq_true] at h1
                simp only [checkForNum] at h
                split at h
                · exact (Except.noConfusion h)
                · simp only [wrapAssign, Except.ok.injEq] at h
                  subst h
                  rcases h1 with ((h1 | h1) | h1) | h1 <;> rw [eqStr_true_iff] at h1 <;> subst h1 <;>
                    simp [Value.mentions, mentionsDoc, hv, hf, OP_FIELD.value]
              · simp only [Except.ok.injEq] at h
                subst h
                simp [Value.mentions, mentionsDoc]

/-- Witness for claim C6 (amended): applied to the CONTAIN example, whose
value and field do not mention $eq, the output does not mention $eq. -/
theorem doBuildSingle_eq_bare_and_no_eq_introduced_witness :
  Value.mentions "$eq"
    (.doc [(.str "name", .doc [(.str "$regex", .str ".*bob.*"), (.str "$options", .str "i")])]) = false :=
  doBuildSingle_eq_bare_and_no_eq_introduced.2 (.str "bob") (.str "$regex") (.str "name")
    (.doc [(.str "name", .doc [(.str "$regex", .str ".*bob.*"), (.str "$options", .str "i")])])
    rfl rfl rfl

/-- Claim C7: for every string value and every field, the CONTAIN token
compiles to the case-insensitive substring regex document and raises
nothing. -/
theorem doBuildSingle_contain_regex :
  ∀ (s : String) (f : Value),
    doBuildSingle (SingleFilter.init (.str s) (.str OP_FIELD.CONTAIN.value) f) =
      .ok (.doc [(f, .doc [(.str "$regex", .str (".*" ++ s ++ ".*")), (.str "$options", .str "i")])]) :=
  fun _ _ => rfl

/-- Claim C8 (code_bug evidence): on a CombinedFilter with empty elements,
make() takes the single-filter path (an empty list is falsy) and raises
AttributeError reading operator_field, which CombinedFilter.__init__ never
assigns; the combination step itself, had it been reached, would have
accepted the empty sequence and produced the degenerate document. -/
theorem make_empty_combined_raises_attributeError :
  make (CombinedFilter.init (.list []) (.str "$and")) = .error (.attributeError "operator_field") ∧
  doBuildCombined (CombinedFilter.init (.list []) (.str "$and")) (.list []) =
    .ok (.doc [(.str "$and", .list [])]) :=
  ⟨rfl, rfl⟩

/-- Claim C9: the builder is deterministic: make applied twice to the same
object gives the same outcome, and equal inputs give equal outputs. The
source methods assign no attribute and perform no I/O, so the pure embedding
is faithful and determinism holds for successful documents and raised
errors alike. -/
theorem make_deterministic :
  (∀ f : Value, make f = make f) ∧ (∀ f g : Value, f = g → make f = make g) :=
  ⟨fun _ => rfl, fun _ _ h => by rw [h]⟩

/-- Witness for claim C9 at a concrete single filter. -/
theorem make_deterministic_witness :
  make (SingleFilter.init (.num 5) (.str "$eq") (.str "a")) =
    make (SingleFilter.init (.num 5) (.str "$eq") (.str "a")) :=
  make_deterministic.2 _ _ rfl

/-- Claim C10 (code_bug evidence): with the OP_FIELD.IN enum member itself
as operator_field (and a value that violates the IN list shape),
doBuildSingle matches no branch and returns the empty document without any
shape check, for every member, value and field; but make() on such a
SingleFilter never reaches that point: it raises AttributeError reading
filter_elements, which SingleFilter.__init__ never assigns. -/
theorem make_single_with_enum_member_operator :
  make (SingleFilter.init (.str "abc") (.opFieldMember OP_FIELD.IN) (.str "f")) =
    .error (.attributeError "filter_elements") ∧
  (∀ (m : OP_FIELD) (v f : Value),
    doBuildSingle (SingleFilter.init v (.opFieldMember m) f) = .ok (.doc [])) :=
  ⟨rfl, fun _ _ _ => rfl⟩

end NyRestaurants
